import Mathlib

/-
Verification of the mesh-network p2p transport layer of omega-cyber.

Shallow embedding of:
  * the stream-to-socket bridge (lp2pStreamConn, singleUseListener) from
    internal/p2p (src/unnamed/part_007, package p2p),
  * the gRPC-over-libp2p glue (Node.WrapGRPC) from the same file,
  * the bootstrap logic (Node.Bootstrap, parsePeers) from the same file,
  * the gRPC dispatcher (NewServer, Serve, StreamTelemetry) from
    src/mesh-network/src/internal/grpc/server.go.

Conventions: Go byte slices are lists of naturals; Go error values are an
inductive type (errors in Go are compared by sentinel identity, so an
inductive with a distinguished end-of-file constructor models io.EOF);
nil error is none. Library code (libp2p streams, the multiaddr parser,
the gRPC server, the health server) sits behind explicit parameters or
records of behaviour, so every repository-level decision is visible in
the definitions. Methods that in Go mutate a receiver are state-passing
functions returning the updated receiver.
-/

namespace OmegaMesh

/-- Go net errors. io.EOF is a distinguished sentinel value in Go, compared
by identity, so it gets its own constructor; every other error carries its
message. -/
inductive NetErr
  | eof
  | other (msg : String)
deriving DecidableEq

/-- A Go context, modelled as an association list of string keys to string
values; context.WithValue prepends, Value finds the innermost binding. -/
abbrev Context := List (String × String)

/-- Embedding of context.WithValue for string keys and values. -/
def contextWithValue (ctx : Context) (key val : String) : Context :=
  (key, val) :: ctx

/-- Embedding of ctx.Value(key): innermost (most recently added) binding
wins; none models the untyped nil that Go returns for an absent key. -/
def contextValue : Context → String → Option String
  | [], _ => none
  | (k, v) :: rest, key => if k = key then some v else contextValue rest key

/-- Behavioural model of a libp2p network.Stream: the identity metadata the
repository reads off it (remote peer, protocol, stream context) plus the
observable results of the read, write and close operations of the
underlying library stream. The operation fields are the library boundary:
the repository never inspects them, it only forwards to them. -/
structure Stream where
  remotePeer : String
  protocol : String
  streamCtx : Context
  readFn : List Nat → Nat × Option NetErr
  writeFn : List Nat → Nat × Option NetErr
  closeFn : Option NetErr

/-- Embedding of lp2pStreamConn: a net.Conn wrapping exactly one libp2p
stream (part_007 lines 266-268). -/
structure lp2pStreamConn where
  stream : Stream

/-- Embedding of lp2pStreamConn.Read (part_007 lines 271-273): delegates to
the stream. -/
def lp2pStreamConn.Read (c : lp2pStreamConn) (b : List Nat) : Nat × Option NetErr :=
  c.stream.readFn b

/-- Embedding of lp2pStreamConn.Write (part_007 lines 276-278): delegates to
the stream. -/
def lp2pStreamConn.Write (c : lp2pStreamConn) (b : List Nat) : Nat × Option NetErr :=
  c.stream.writeFn b

/-- Embedding of lp2pStreamConn.Close (part_007 lines 281-283): closes the
underlying stream. -/
def lp2pStreamConn.Close (c : lp2pStreamConn) : Option NetErr :=
  c.stream.closeFn

/-- Model of net.TCPAddr as the repository builds it: a parsed IP (kept as
its source string) and a port. -/
structure TCPAddr where
  ip : String
  port : Nat
deriving DecidableEq

/-- Embedding of lp2pStreamConn.LocalAddr (part_007 lines 286-288): the
hard-coded placeholder TCPAddr 127.0.0.1:0, independent of the stream. -/
def lp2pStreamConn.LocalAddr (_c : lp2pStreamConn) : TCPAddr :=
  { ip := "127.0.0.1", port := 0 }

/-- Embedding of lp2pStreamConn.RemoteAddr (part_007 lines 291-293): the
same hard-coded placeholder TCPAddr 127.0.0.1:0. -/
def lp2pStreamConn.RemoteAddr (_c : lp2pStreamConn) : TCPAddr :=
  { ip := "127.0.0.1", port := 0 }

/-- Embedding of lp2pStreamConn.SetDeadline (part_007 lines 296-298): the
body is a single return of a fresh error; the receiver (hence the stream)
is untouched, which the state-passing result records. Go time.Time is an
opaque instant here. -/
def lp2pStreamConn.SetDeadline (c : lp2pStreamConn) (_t : Int) :
    Option NetErr × lp2pStreamConn :=
  (some (NetErr.other "SetDeadline not supported for libp2p streams"), c)

/-- Embedding of lp2pStreamConn.SetReadDeadline (part_007 lines 301-303). -/
def lp2pStreamConn.SetReadDeadline (c : lp2pStreamConn) (_t : Int) :
    Option NetErr × lp2pStreamConn :=
  (some (NetErr.other "SetReadDeadline not supported for libp2p streams"), c)

/-- Embedding of lp2pStreamConn.SetWriteDeadline (part_007 lines 306-308). -/
def lp2pStreamConn.SetWriteDeadline (c : lp2pStreamConn) (_t : Int) :
    Option NetErr × lp2pStreamConn :=
  (some (NetErr.other "SetWriteDeadline not supported for libp2p streams"), c)

/-- Embedding of singleUseListener (part_007 lines 327-330): the wrapped
stream plus the state of the sync.Once guard. sync.Once runs its body on
the first Do call only; the boolean onceDone is that state. -/
structure singleUseListener where
  stream : Stream
  onceDone : Bool

/-- Embedding of newSingleUseListener (part_007 lines 332-336): a fresh
listener whose once-guard has not fired. -/
def newSingleUseListener (stream : Stream) : singleUseListener :=
  { stream := stream, onceDone := false }

/-- Embedding of singleUseListener.Accept (part_007 lines 338-348): the
once-guard runs the body (conn := wrap the stream) on the first call only;
afterwards conn stays nil and the method returns io.EOF. The call never
blocks: it is a total function of the listener state. -/
def singleUseListener.Accept (l : singleUseListener) :
    (Option lp2pStreamConn × Option NetErr) × singleUseListener :=
  if l.onceDone then
    ((none, some NetErr.eof), l)
  else
    ((some { stream := l.stream }, none), { l with onceDone := true })

/-- Embedding of singleUseListener.Close (part_007 lines 350-352): closes
the underlying stream. -/
def singleUseListener.Close (l : singleUseListener) : Option NetErr :=
  l.stream.closeFn

/-- Embedding of singleUseListener.Addr (part_007 lines 354-357): the
hard-coded dummy TCPAddr 127.0.0.1:0. -/
def singleUseListener.Addr (_l : singleUseListener) : TCPAddr :=
  { ip := "127.0.0.1", port := 0 }

/-- Result of the n-th successive Accept call on a listener (0-indexed),
threading the listener state through the calls. -/
def acceptNth (l : singleUseListener) : Nat → Option lp2pStreamConn × Option NetErr
  | 0 => (l.Accept).1
  | Nat.succ n => acceptNth (l.Accept).2 n

/-- Behavioural model of the third-party gRPC server (google.golang.org/grpc).
The repository only hands it listeners; baseCtx is the base context from
which the library derives every per-RPC handler context. -/
structure GrpcServer where
  baseCtx : Context

/-- Model of grpc.NewServer() as called in NewServer (server.go line 47):
a fresh server whose base context carries no repository-set key. -/
def grpcNewServer : GrpcServer :=
  { baseCtx := [] }

/-- Library boundary for grpc.Server.Serve(lis): the Serve entry point of
the gRPC library takes only a net.Listener — it has no context parameter —
so the context a service handler observes via stream.Context() derives
solely from the base context of the server. -/
def GrpcServer.servedHandlerCtx (srv : GrpcServer) (_l : singleUseListener) : Context :=
  srv.baseCtx

/-- Everything one invocation of the handler returned by Node.WrapGRPC
produces: the local context variable the body computes, the listener it
passes to grpcServer.Serve, and the context the RPC handlers serving that
listener observe. -/
structure HandlerRun where
  ctx : Context
  listener : singleUseListener
  handlerCtx : Context

/-- Embedding of the stream handler returned by Node.WrapGRPC (part_007
lines 311-324). The body computes
ctx := context.WithValue(s.Context(), "peerid", s.Conn().RemotePeer().String())
and then starts grpcServer.Serve(newSingleUseListener(s)) in a goroutine.
The local variable ctx is passed to nothing: the only argument of Serve is
the listener, so the handler-visible context is servedHandlerCtx of the
listener and the computed ctx is dead. -/
def WrapGRPC (srv : GrpcServer) (s : Stream) : HandlerRun :=
  let ctx := contextWithValue s.streamCtx "peerid" s.remotePeer
  let l := newSingleUseListener s
  { ctx := ctx, listener := l, handlerCtx := srv.servedHandlerCtx l }

/-- One telemetry message as far as the dispatcher inspects it. -/
structure Telemetry where
  agentId : String
  ttype : String
deriving DecidableEq

/-- One result of stream.Recv() inside StreamTelemetry: either a message or
a failure (which may be the end-of-input sentinel io.EOF). -/
inductive RecvEvent
  | msg (t : Telemetry)
  | fail (e : NetErr)
deriving DecidableEq

/-- Errors StreamTelemetry can return: the wrapped peer-id parse failure
from its prologue, or an error propagated from Recv. -/
inductive STError
  | peerIdParse (e : String)
  | recv (e : NetErr)
deriving DecidableEq

/-- Observable outcome of one StreamTelemetry invocation: a Go panic (from
the unchecked type assertion in the prologue), blocking on a further Recv
beyond the modelled events, or returning (none models returning nil). -/
inductive STOutcome
  | panicked
  | blocked
  | returned (r : Option STError)
deriving DecidableEq

/-- Embedding of the receive loop of Server.StreamTelemetry (server.go
lines 99-115) over a finite prefix of Recv results: err == io.EOF returns
nil; any other non-nil err is returned as-is; a message continues the
loop. An exhausted event list means the loop is still blocked in Recv. -/
def streamTelemetryLoop : List RecvEvent → Option (Option STError)
  | [] => none
  | RecvEvent.fail NetErr.eof :: _ => some none
  | RecvEvent.fail e :: _ => some (some (STError.recv e))
  | RecvEvent.msg _ :: rest => streamTelemetryLoop rest

/-- Embedding of Server.StreamTelemetry (server.go lines 92-115).
ctxValue is stream.Context().Value("peerid") (none models an untyped nil);
the Go type assertion .(string) on nil panics, which the first branch
records. idResult is the outcome of the library call
peer.IDFromBytes([]byte(v)) on the extracted string; on failure the method
returns the wrapped parse error, otherwise it enters the receive loop. -/
def StreamTelemetry (ctxValue : Option String) (idResult : Except String String)
    (events : List RecvEvent) : STOutcome :=
  match ctxValue with
  | none => STOutcome.panicked
  | some _ =>
    match idResult with
    | Except.error e => STOutcome.returned (some (STError.peerIdParse e))
    | Except.ok _ =>
      match streamTelemetryLoop events with
      | none => STOutcome.blocked
      | some r => STOutcome.returned r

/-- A multiaddress string after successful syntactic parsing. -/
abbrev Multiaddr := String

/-- Embedding of peer.AddrInfo: a peer identifier and its addresses. -/
structure AddrInfo where
  id : String
  addrs : List Multiaddr
deriving DecidableEq

/-- Embedding of parsePeers (part_007 lines 359-373), parameterised by the
two library parsers it calls: multiaddr.NewMultiaddr and
peer.AddrInfoFromP2pAddr. The loop stops at the first failure of either
and returns that error; otherwise it returns the parsed peers in order. -/
def parsePeers (parseMA : String → Except String Multiaddr)
    (fromP2p : Multiaddr → Except String AddrInfo) :
    List String → Except String (List AddrInfo)
  | [] => Except.ok []
  | a :: rest =>
    match parseMA a with
    | Except.error e => Except.error e
    | Except.ok m =>
      match fromP2p m with
      | Except.error e => Except.error e
      | Except.ok pi =>
        match parsePeers parseMA fromP2p rest with
        | Except.error e => Except.error e
        | Except.ok ps => Except.ok (pi :: ps)

/-- Errors Node.Bootstrap can return (part_007 lines 231-238): the
could-not-connect-to-any-bootstrap-peers error (BootstrapUnreachable of
the spec) or the wrapped DHT bootstrap failure. Go errors are values
compared by identity, hence the inductive. -/
inductive BootstrapError
  | unreachable
  | dhtBootstrap (e : String)
deriving DecidableEq

/-- Environment of one Node.Bootstrap invocation: the library state and
behaviour it consults. defaultBootstrapPeers is the package-level variable
dht.DefaultBootstrapPeers; parseMA and fromP2p are the parsers used by
parsePeers; connectOk says whether n.Host.Connect succeeds for a given
peer; dhtBootstrapErr is the result of n.dht.Bootstrap(ctx). -/
structure BootstrapEnv where
  defaultBootstrapPeers : List AddrInfo
  parseMA : String → Except String Multiaddr
  fromP2p : Multiaddr → Except String AddrInfo
  connectOk : AddrInfo → Bool
  dhtBootstrapErr : Option String

/-- Embedding of the seed-selection prologue of Node.Bootstrap (part_007
lines 205-213): start from dht.DefaultBootstrapPeers; if JoinAddresses is
non-empty, parse them; on success they replace the defaults, on failure
the error is only logged as a warning and the defaults stay. -/
def bootstrapPeersOf (env : BootstrapEnv) (joinAddresses : List String) : List AddrInfo :=
  if 0 < joinAddresses.length then
    match parsePeers env.parseMA env.fromP2p joinAddresses with
    | Except.error _ => env.defaultBootstrapPeers
    | Except.ok ps => ps
  else
    env.defaultBootstrapPeers

/-- Number of seed peers whose Host.Connect call succeeds (part_007 lines
216-229; the per-peer dials are independent and the count is the number
of successful ones). -/
def connectedCount (env : BootstrapEnv) (peers : List AddrInfo) : Nat :=
  (peers.filter env.connectOk).length

/-- Embedding of Node.Bootstrap (part_007 lines 201-255): select the seed
list, dial every seed, and fail with the unreachable error exactly when
the guard connectedPeers == 0 && len(bootstrapPeers) > 0 holds; otherwise
propagate a DHT bootstrap failure if any, else return nil. The periodic
routing-table logging loop has no observable return value and is not
modelled. -/
def Bootstrap (env : BootstrapEnv) (joinAddresses : List String) : Option BootstrapError :=
  let bootstrapPeers := bootstrapPeersOf env joinAddresses
  if connectedCount env bootstrapPeers = 0 ∧ 0 < bootstrapPeers.length then
    some BootstrapError.unreachable
  else
    match env.dhtBootstrapErr with
    | some e => some (BootstrapError.dhtBootstrap e)
    | none => none

/-- Serving status values of the gRPC health protocol. -/
inductive HealthStatus
  | unknown
  | serving
  | notServing
deriving DecidableEq

/-- Library boundary for health.NewServer() (server.go line 48): the health
server of the gRPC library starts with the overall (empty-name) service
already set to SERVING and no other service registered. -/
def healthNewServer : String → Option HealthStatus :=
  fun svc => if svc = "" then some HealthStatus.serving else none

/-- Library boundary for healthServer.SetServingStatus(svc, st): point
update of the status map. -/
def setServingStatus (m : String → Option HealthStatus) (svc : String)
    (st : HealthStatus) : String → Option HealthStatus :=
  fun k => if k = svc then some st else m k

/-- State of the dispatcher Server that the health claims observe: the
status map of its health server and whether Serve has registered the mesh
stream handler on the libp2p host. -/
structure MeshServer where
  health : String → Option HealthStatus
  streamHandlerSet : Bool

/-- Embedding of NewServer (server.go lines 44-62): constructs the gRPC and
health servers, registers the services, and already calls
SetServingStatus("", SERVING) at construction time, before Serve. The
stream handler is not yet registered. -/
def NewServer : MeshServer :=
  { health := setServingStatus healthNewServer "" HealthStatus.serving,
    streamHandlerSet := false }

/-- Embedding of Server.Serve (server.go lines 66-69): registers the stream
handler for the mesh protocol on the host; it does not touch the health
server. -/
def Serve (s : MeshServer) : MeshServer :=
  { s with streamHandlerSet := true }

/-- The fixed synthetic address 127.0.0.1:0 that every address-reporting
method of the bridge returns. -/
def placeholderAddr : TCPAddr :=
  { ip := "127.0.0.1", port := 0 }

/-- A concrete inbound stream used to exhibit the dropped peerid context. -/
def sampleStream : Stream :=
  { remotePeer := "QmSamplePeer"
    protocol := "/omega/mesh/1.0.0"
    streamCtx := []
    readFn := fun _ => (0, none)
    writeFn := fun _ => (0, none)
    closeFn := none }

/-- A concrete bootstrap environment with an empty default seed list (the
spec itself treats the default seed list as injectable configuration, for
example empty in tests) in which no peer can be dialed. -/
def emptySeedEnv : BootstrapEnv :=
  { defaultBootstrapPeers := []
    parseMA := fun a => Except.ok a
    fromP2p := fun m => Except.ok { id := m, addrs := [m] }
    connectOk := fun _ => false
    dhtBootstrapErr := none }

/-- A concrete bootstrap environment in which every join address parses and
only the default seed peer is reachable. -/
def sampleEnv : BootstrapEnv :=
  { defaultBootstrapPeers := [{ id := "defaultSeed", addrs := ["/dns4/seed/udp/4001/quic"] }]
    parseMA := fun a => Except.ok a
    fromP2p := fun m => Except.ok { id := m, addrs := [m] }
    connectOk := fun p => p.id == "defaultSeed"
    dhtBootstrapErr := none }

/-- A concrete bootstrap environment whose multiaddress parser rejects
every string, so any non-empty join list fails to parse. -/
def failParseEnv : BootstrapEnv :=
  { defaultBootstrapPeers := [{ id := "defaultSeed", addrs := ["/dns4/seed/udp/4001/quic"] }]
    parseMA := fun _ => Except.error "invalid multiaddr"
    fromP2p := fun m => Except.ok { id := m, addrs := [m] }
    connectOk := fun p => p.id == "defaultSeed"
    dhtBootstrapErr := none }

/-- Helper: once the once-guard of a listener has fired, every further
Accept call, at any depth, yields (nil, io.EOF) and leaves the state
unchanged. -/
theorem acceptNth_of_onceDone (n : Nat) (l : singleUseListener)
    (h : l.onceDone = true) : acceptNth l n = (none, some NetErr.eof) := by
  induction n generalizing l with
  | zero => simp [acceptNth, singleUseListener.Accept, h]
  | succ n ih =>
      have hstep : (l.Accept).2 = l := by
        simp [singleUseListener.Accept, h]
      calc acceptNth l (n + 1) = acceptNth (l.Accept).2 n := rfl
        _ = acceptNth l n := by rw [hstep]
        _ = (none, some NetErr.eof) := ih l h

/-- C2: the first Accept call on a fresh singleUseListener returns the
connection wrapping the underlying stream together with a nil error, and
for every n the (n+2)-nd call returns a nil connection and io.EOF; Accept
is a total function of the listener state, so no call blocks. -/
theorem accept_succeeds_exactly_once (s : Stream) (n : Nat) :
    acceptNth (newSingleUseListener s) 0 = (some { stream := s }, none) ∧
    acceptNth (newSingleUseListener s) (n + 1) = (none, some NetErr.eof) := by
  constructor
  · simp [acceptNth, newSingleUseListener, singleUseListener.Accept]
  · have h2 : (((newSingleUseListener s).Accept).2).onceDone = true := by
      simp [newSingleUseListener, singleUseListener.Accept]
    calc acceptNth (newSingleUseListener s) (n + 1)
        = acceptNth ((newSingleUseListener s).Accept).2 n := rfl
      _ = (none, some NetErr.eof) := acceptNth_of_onceDone n _ h2

/-- C6: Read and Write on a bridged connection return exactly the byte
count and error of the underlying stream on the same buffer, and Close on
either the connection or the single-use listener performs exactly the
close of the underlying stream. -/
theorem conn_passthrough (c : lp2pStreamConn) (b : List Nat)
    (l : singleUseListener) :
    c.Read b = c.stream.readFn b ∧
    c.Write b = c.stream.writeFn b ∧
    c.Close = c.stream.closeFn ∧
    l.Close = l.stream.closeFn :=
  ⟨rfl, rfl, rfl, rfl⟩

/-- C7: LocalAddr, RemoteAddr and the listener Addr all return the one
fixed synthetic placeholder 127.0.0.1:0, for every connection and every
listener, hence independent of the stream, the remote peer and the actual
endpoints. -/
theorem addresses_fixed_placeholder (c c2 : lp2pStreamConn)
    (l l2 : singleUseListener) :
    c.LocalAddr = placeholderAddr ∧
    c.RemoteAddr = placeholderAddr ∧
    l.Addr = placeholderAddr ∧
    c.LocalAddr = c2.LocalAddr ∧
    c.RemoteAddr = c2.RemoteAddr ∧
    l.Addr = l2.Addr :=
  ⟨rfl, rfl, rfl, rfl, rfl, rfl⟩

/-- C9: SetDeadline, SetReadDeadline and SetWriteDeadline each return a
non-nil error for every deadline value and leave the connection (hence the
underlying stream) unchanged. -/
theorem deadlines_unsupported (c : lp2pStreamConn) (t : Int) :
    ((c.SetDeadline t).1).isSome = true ∧ (c.SetDeadline t).2 = c ∧
    ((c.SetReadDeadline t).1).isSome = true ∧ (c.SetReadDeadline t).2 = c ∧
    ((c.SetWriteDeadline t).1).isSome = true ∧ (c.SetWriteDeadline t).2 = c :=
  ⟨rfl, rfl, rfl, rfl, rfl, rfl⟩

/-- C1: on a concrete inbound stream, the handler body of WrapGRPC does
compute a context carrying the remote peer under the key peerid, but the
context actually observed by the RPC handlers served through
grpcServer.Serve holds no peerid binding (the computed context is passed
to nothing), so StreamTelemetry, whose prologue type-asserts that context
value, hits a nil type assertion. -/
theorem wrapGRPC_peerid_dropped :
    contextValue (WrapGRPC grpcNewServer sampleStream).ctx "peerid"
        = some "QmSamplePeer" ∧
    contextValue (WrapGRPC grpcNewServer sampleStream).handlerCtx "peerid"
        = none ∧
    StreamTelemetry
        (contextValue (WrapGRPC grpcNewServer sampleStream).handlerCtx "peerid")
        (Except.ok "QmSamplePeer") [] = STOutcome.panicked := by
  refine ⟨?_, rfl, rfl⟩
  simp [WrapGRPC, contextWithValue, contextValue, sampleStream, grpcNewServer]

/-- Helper: the receive loop skips every successfully received message and
is decided by the first failure event. -/
theorem streamTelemetryLoop_msgs (ts : List Telemetry) (evs : List RecvEvent) :
    streamTelemetryLoop (ts.map RecvEvent.msg ++ evs) = streamTelemetryLoop evs := by
  induction ts with
  | nil => rfl
  | cons t ts ih => simpa [streamTelemetryLoop] using ih

/-- C8: in a telemetry session whose peerid prologue succeeds, a Recv that
yields io.EOF after any number of messages makes StreamTelemetry return
nil, while a Recv yielding any other error makes it return exactly that
error. -/
theorem streamTelemetry_eof_vs_error (v pid : String) (ts : List Telemetry)
    (m : String) (rest : List RecvEvent) :
    StreamTelemetry (some v) (Except.ok pid)
        (ts.map RecvEvent.msg ++ [RecvEvent.fail NetErr.eof])
      = STOutcome.returned none ∧
    StreamTelemetry (some v) (Except.ok pid)
        (ts.map RecvEvent.msg ++ RecvEvent.fail (NetErr.other m) :: rest)
      = STOutcome.returned (some (STError.recv (NetErr.other m))) := by
  constructor
  · have h := streamTelemetryLoop_msgs ts [RecvEvent.fail NetErr.eof]
    simp [StreamTelemetry, h, streamTelemetryLoop]
  · have h := streamTelemetryLoop_msgs ts (RecvEvent.fail (NetErr.other m) :: rest)
    simp [StreamTelemetry, h, streamTelemetryLoop]

/-- C3 counterexample: in an environment whose seed list is empty (zero
seed peers available to attempt), Bootstrap connects zero peers and still
returns nil rather than the unreachable error. -/
theorem bootstrap_no_error_on_empty_seed_list :
    connectedCount emptySeedEnv (bootstrapPeersOf emptySeedEnv []) = 0 ∧
    (bootstrapPeersOf emptySeedEnv []).length = 0 ∧
    Bootstrap emptySeedEnv [] = none := by
  decide

/-- C3 amended: Bootstrap returns the unreachable error exactly when zero
seed peers connected and at least one seed peer was attempted; in
particular it never returns this error when the seed list was empty, and
never when at least one seed connected. -/
theorem bootstrap_unreachable_iff (env : BootstrapEnv) (join : List String) :
    Bootstrap env join = some BootstrapError.unreachable ↔
      connectedCount env (bootstrapPeersOf env join) = 0 ∧
        0 < (bootstrapPeersOf env join).length := by
  by_cases h : connectedCount env (bootstrapPeersOf env join) = 0 ∧
      0 < (bootstrapPeersOf env join).length
  · simp [Bootstrap, h]
  · cases hd : env.dhtBootstrapErr with
    | none => simp [Bootstrap, h, hd]
    | some e => simp [Bootstrap, h, hd]

/-- C5: with an empty JoinAddresses list the dialed seed set is exactly
dht.DefaultBootstrapPeers, and with a non-empty list that parses
successfully it is exactly the parsed configured peers. -/
theorem bootstrap_seed_selection (env : BootstrapEnv) (join : List String)
    (ps : List AddrInfo)
    (hok : parsePeers env.parseMA env.fromP2p join = Except.ok ps) :
    bootstrapPeersOf env [] = env.defaultBootstrapPeers ∧
    (join ≠ [] → bootstrapPeersOf env join = ps) := by
  refine ⟨rfl, fun hne => ?_⟩
  have hlen : 0 < join.length := List.length_pos.mpr hne
  simp [bootstrapPeersOf, hlen, hok]

/-- Witness for C5 at a concrete environment and one join address. -/
theorem bootstrap_seed_selection_witness :
    bootstrapPeersOf sampleEnv [] = sampleEnv.defaultBootstrapPeers ∧
    bootstrapPeersOf sampleEnv ["/dns4/a/udp/1/quic"] =
      [{ id := "/dns4/a/udp/1/quic", addrs := ["/dns4/a/udp/1/quic"] }] := by
  have h := bootstrap_seed_selection sampleEnv ["/dns4/a/udp/1/quic"]
    [{ id := "/dns4/a/udp/1/quic", addrs := ["/dns4/a/udp/1/quic"] }] (by rfl)
  exact ⟨h.1, h.2 (by simp)⟩

/-- C10: when JoinAddresses is non-empty but fails to parse, Bootstrap
uses exactly the default seed set and behaves identically to an invocation
with no configured join addresses — the parse error is never returned. -/
theorem invalid_join_addresses_fall_back (env : BootstrapEnv)
    (join : List String) (e : String) (hne : join ≠ [])
    (herr : parsePeers env.parseMA env.fromP2p join = Except.error e) :
    bootstrapPeersOf env join = env.defaultBootstrapPeers ∧
    Bootstrap env join = Bootstrap env [] := by
  have hlen : 0 < join.length := List.length_pos.mpr hne
  have hbp : bootstrapPeersOf env join = env.defaultBootstrapPeers := by
    simp [bootstrapPeersOf, hlen, herr]
  refine ⟨hbp, ?_⟩
  have hbp0 : bootstrapPeersOf env [] = env.defaultBootstrapPeers := rfl
  simp [Bootstrap, hbp, hbp0]

/-- Witness for C10 at a concrete environment whose parser rejects the one
configured address. -/
theorem invalid_join_addresses_fall_back_witness :
    bootstrapPeersOf failParseEnv ["bogus"] = failParseEnv.defaultBootstrapPeers ∧
    Bootstrap failParseEnv ["bogus"] = Bootstrap failParseEnv [] :=
  invalid_join_addresses_fall_back failParseEnv ["bogus"] "invalid multiaddr"
    (by simp) (by rfl)

/-- C4 counterexample: immediately after NewServer, before Serve has
registered the stream handler, the overall (empty-name) health status is
already SERVING — not distinct from the serving state. -/
theorem health_serving_before_serve :
    NewServer.streamHandlerSet = false ∧
    NewServer.health "" = some HealthStatus.serving := by
  exact ⟨rfl, by simp [NewServer, setServingStatus]⟩

/-- C4 amended: the overall health status is SERVING from construction
(NewServer) onward — already between construction and the start of
serving, and still once Serve has registered the stream handler — so the
health flag does not distinguish constructed-but-not-yet-serving from
fully serving. -/
theorem health_serving_from_construction :
    NewServer.health "" = some HealthStatus.serving ∧
    (Serve NewServer).health "" = some HealthStatus.serving ∧
    (Serve NewServer).streamHandlerSet = true := by
  refine ⟨by simp [NewServer, setServingStatus], by simp [Serve, NewServer, setServingStatus], rfl⟩

end OmegaMesh
